import Mathlib

/-!
Shallow embedding of the chip emulator (`emulate.py`): the three-valued
signal domain `State`, gate truth functions, the name/arity validation of
`NodeList.validate`, input-binding setters, and the fixed three-pass
stabilization steps of the SR latches and the D-type flip-flop.
All definitions are translated from the Python source.
-/

namespace Emulate

/-- `State`: the three-valued signal domain (`low = 0`, `high = 1`, `z = 2`),
an `IntFlag` in the source, so comparisons are integer comparisons. -/
inductive State where
  | low
  | high
  | z
  deriving DecidableEq, Repr, Fintype

/-- The integer value of a `State` member (`low = 0`, `high = 1`, `z = 2`). -/
def State.toNat : State → Nat
  | .low => 0
  | .high => 1
  | .z => 2

/-- The predicate `i.state >= State.high` used by `OrGate`/`AndGate`/`XorGate`:
integer comparison on the `IntFlag`, so `z` (2) also counts as asserted. -/
def State.asserted (s : State) : Bool := 1 ≤ s.toNat

/-- `Node` (a wire): a name and a mutable state. The `id` field stands for
Python object identity (each constructed object is distinct); `Node` defines
no `__eq__`, so `==` between two nodes is identity. -/
structure Node where
  id : Nat
  name : String
  state : State
  deriving DecidableEq, Repr

/-- `State.__eq__` on two `State`s: integer comparison. -/
def stateEqState (a b : State) : Bool := a.toNat == b.toNat

/-- `State.__eq__` when the other operand is a `Node`:
`int(self) == int(other.state)`. -/
def stateEqNode (a : State) (n : Node) : Bool := a.toNat == n.state.toNat

/-- Python `==` between two `Node`s: `Node` defines no `__eq__`, so the
default object identity comparison applies. -/
def nodeEqNode (a b : Node) : Bool := a.id == b.id

/-- `OrGate.calculate`: output `high` iff any input is asserted
(`i.state >= State.high`). -/
def orGateOut (ins : List State) : State :=
  if ins.any State.asserted then .high else .low

/-- `AndGate.calculate`: output `high` iff all inputs are asserted. -/
def andGateOut (ins : List State) : State :=
  if ins.all State.asserted then .high else .low

/-- `NotGate.calculate`: output `high` iff the single input `== State.low`
(integer comparison with 0). -/
def notGateOut (s : State) : State :=
  if s.toNat == 0 then .high else .low

/-- `XorGate.calculate`: `Counter` of the asserted inputs; output `high` iff
exactly one input is asserted (`result.get(True) == 1`). -/
def xorGateOut (ins : List State) : State :=
  if ins.countP State.asserted == 1 then .high else .low

/-- `NorGate`: an `OrGate` feeding a `NotGate` (composition, not inline
negation). -/
def norGateOut (ins : List State) : State := notGateOut (orGateOut ins)

/-- `NandGate`: an `AndGate` feeding a `NotGate`. -/
def nandGateOut (ins : List State) : State := notGateOut (andGateOut ins)

/-- `XnorGate`: an `XorGate` feeding a `NotGate`. -/
def xnorGateOut (ins : List State) : State := notGateOut (xorGateOut ins)

/-- The two output nodes of an SR latch: `q` (gate 1 output) and `qbar`
(gate 2 output). -/
structure LatchState where
  q : State
  qbar : State
  deriving DecidableEq, Repr, Fintype

/-- `SRNorLatch.calculate`: the fixed three-pass schedule NorGate1, NorGate2,
NorGate1 again, where NorGate1 reads `[Reset, NorGate2.out]` and outputs `Q`,
and NorGate2 reads `[Set, NorGate1.out]` and outputs `QBar`. -/
def srNorStep (setv resetv : State) (st : LatchState) : LatchState :=
  let q1 := norGateOut [resetv, st.qbar]
  let qbar1 := norGateOut [setv, q1]
  let q2 := norGateOut [resetv, qbar1]
  ⟨q2, qbar1⟩

/-- `SRNandLatch.calculate`: three passes NandGate1, NandGate2, NandGate1,
where NandGate1 reads `[Set, NandGate2.out]` and outputs `Q`, and NandGate2
reads `[Reset, NandGate1.out]` and outputs `QBar`. -/
def srNandStep (setv resetv : State) (st : LatchState) : LatchState :=
  let q1 := nandGateOut [setv, st.qbar]
  let qbar1 := nandGateOut [resetv, q1]
  let q2 := nandGateOut [setv, qbar1]
  ⟨q2, qbar1⟩

/-- The internal wire states of a `DTypeFlipFlop`: the `NotGate` output, the
two gating NAND outputs (`Set`, `Reset`) and the SR-NAND latch outputs. -/
structure DFlipFlopState where
  notOut : State
  setNode : State
  resetNode : State
  latch : LatchState
  deriving DecidableEq, Repr, Fintype

/-- `DTypeFlipFlop.calculate` (inherited `ComponentBase.calculate`): evaluate
sub-components in declared order — NotGate on `D`, NandGate1 on `[D, Clk]`
(output `Set`), NandGate2 on `[NotGate.out, Clk]` (output `Reset`), then the
`SRNandLatch` on `[Set, Reset]`. -/
def dTypeStep (d clk : State) (st : DFlipFlopState) : DFlipFlopState :=
  let n := notGateOut d
  let s := nandGateOut [d, clk]
  let r := nandGateOut [n, clk]
  ⟨n, s, r, srNandStep s r st.latch⟩

/-- The error raised by `NodeList.validate`: each constructor is one of its
four distinct `raise ValueError` sites. -/
inductive ValidationError where
  | minLength (elementName : String) (m : Nat)
  | maxLength (elementName : String) (m : Nat)
  | unexpectedNames (ns : List String)
  | missingNames (ns : List String)
  deriving DecidableEq, Repr

/-- Python truthiness of an optional integer argument (`None` and `0` are
falsy). -/
def optNatTruthy : Option Nat → Bool
  | none => false
  | some n => n != 0

/-- Python truthiness of an optional list argument (`None` and `[]` are
falsy). -/
def optListTruthy : Option (List String) → Bool
  | none => false
  | some l => !l.isEmpty

/-- `set(i.name for i in self).difference(expected_names)`: the collection
names that are not in the expected set. -/
def unexpectedNamesOf (names expected : List String) : List String :=
  names.eraseDups.filter (fun n => !expected.contains n)

/-- `set(expected_names).difference(i.name for i in self)`: the expected names
absent from the collection. -/
def missingNamesOf (names expected : List String) : List String :=
  expected.eraseDups.filter (fun n => !names.contains n)

/-- `NodeList.validate(element_name, expected_names, min_length, max_length)`
over the list of node names: checks min length, then max length, then (if
`expected_names` is truthy) raises on unexpected names, and only when there
are none, raises on missing names. -/
def nodeListValidate (names : List String) (elementName : String)
    (expectedNames : Option (List String)) (minLength maxLength : Option Nat) :
    Except ValidationError Unit :=
  if optNatTruthy minLength = true ∧ names.length < minLength.getD 0 then
    .error (.minLength elementName (minLength.getD 0))
  else if optNatTruthy maxLength = true ∧ maxLength.getD 0 < names.length then
    .error (.maxLength elementName (maxLength.getD 0))
  else if optListTruthy expectedNames = true then
    if unexpectedNamesOf names (expectedNames.getD []) ≠ [] then
      .error (.unexpectedNames (unexpectedNamesOf names (expectedNames.getD [])))
    else if missingNamesOf names (expectedNames.getD []) ≠ [] then
      .error (.missingNames (missingNamesOf names (expectedNames.getD [])))
    else .ok ()
  else .ok ()

/-- The `SRNorLatch.inputs` setter validation: names must be exactly
`{Set, Reset}`, with `min_length=2, max_length=2`. -/
def srNorBindValidate (names : List String) : Except ValidationError Unit :=
  nodeListValidate names "SRNorLatch" (some ["Set", "Reset"]) (some 2) (some 2)

/-- The `JKFlipFlop.inputs` setter validation as written in the source:
`expected_names=["J", "K", "Clk"]` but `min_length=2, max_length=2`. -/
def jkBindValidate (names : List String) : Except ValidationError Unit :=
  nodeListValidate names "JKFlipFlop" (some ["J", "K", "Clk"]) (some 2) (some 2)

/-- A latch whose two outputs are complementary: the configurations reached
by the SR-NAND latch inside a `DTypeFlipFlop` after any `calculate()`. -/
def settledLatch (l : LatchState) : Prop :=
  l = ⟨.high, .low⟩ ∨ l = ⟨.low, .high⟩

instance (l : LatchState) : Decidable (settledLatch l) :=
  inferInstanceAs (Decidable (_ ∨ _))

/-- Primitive gate `calculate()` as a transformer of the output node state:
the previous output is overwritten by a pure function of the inputs. -/
def orCalc (ins : List State) (_out : State) : State := orGateOut ins

def andCalc (ins : List State) (_out : State) : State := andGateOut ins

def notCalc (s : State) (_out : State) : State := notGateOut s

def xorCalc (ins : List State) (_out : State) : State := xorGateOut ins

/-- Internal wire states of a derived gate (NOR/NAND/XNOR): the inner
primitive stage output and the NOT stage output. -/
structure DerivedGateState where
  innerOut : State
  outNode : State
  deriving DecidableEq, Repr, Fintype

/-- `NorGate.calculate` (inherited `ComponentBase.calculate`): the OR stage
writes its output from the inputs, then the NOT stage reads it. -/
def norCalc (ins : List State) (_st : DerivedGateState) : DerivedGateState :=
  ⟨orGateOut ins, notGateOut (orGateOut ins)⟩

/-- `NandGate.calculate`: the AND stage, then the NOT stage. -/
def nandCalc (ins : List State) (_st : DerivedGateState) : DerivedGateState :=
  ⟨andGateOut ins, notGateOut (andGateOut ins)⟩

/-- `XnorGate.calculate`: the XOR stage, then the NOT stage. -/
def xnorCalc (ins : List State) (_st : DerivedGateState) : DerivedGateState :=
  ⟨xorGateOut ins, notGateOut (xorGateOut ins)⟩

end Emulate

namespace Emulate

lemma srNandStep_idem (s r : State) (l : LatchState) :
    srNandStep s r (srNandStep s r l) = srNandStep s r l := by
  revert s r l; decide

lemma srNorStep_idem (s r : State) (l : LatchState) :
    srNorStep s r (srNorStep s r l) = srNorStep s r l := by
  revert s r l; decide

lemma dTypeStep_latch (d clk : State) (st : DFlipFlopState) :
    (dTypeStep d clk st).latch
      = srNandStep (nandGateOut [d, clk]) (nandGateOut [notGateOut d, clk])
          st.latch := rfl

lemma srNandStep_gated_settled (d clk : State) (l : LatchState) :
    settledLatch
      (srNandStep (nandGateOut [d, clk]) (nandGateOut [notGateOut d, clk]) l) := by
  revert d clk l; decide

lemma dTypeStep_settled (d clk : State) (st : DFlipFlopState) :
    settledLatch (dTypeStep d clk st).latch :=
  srNandStep_gated_settled d clk st.latch

lemma srNandStep_gated_hold (d : State) (l : LatchState) (h : settledLatch l) :
    srNandStep (nandGateOut [d, .low]) (nandGateOut [notGateOut d, .low]) l
      = l := by
  revert d l; decide

lemma dTypeStep_low_clk_hold (d : State) (st : DFlipFlopState)
    (h : settledLatch st.latch) : (dTypeStep d .low st).latch = st.latch :=
  (dTypeStep_latch d .low st).trans (srNandStep_gated_hold d st.latch h)

lemma dType_foldl_low_clk_hold (ds : List State) :
    ∀ st : DFlipFlopState, settledLatch st.latch →
      (ds.foldl (fun s d => dTypeStep d .low s) st).latch = st.latch := by
  induction ds with
  | nil => intro st _; rfl
  | cons d ds ih =>
    intro st h
    have hstep : (dTypeStep d .low st).latch = st.latch :=
      dTypeStep_low_clk_hold d st h
    have hsettled : settledLatch (dTypeStep d .low st).latch :=
      dTypeStep_settled d .low st
    simp only [List.foldl_cons]
    rw [ih (dTypeStep d .low st) hsettled, hstep]

end Emulate

namespace Emulate

/-- C1: an SRNorLatch bound to wires named Set and Reset: `(Set=High,
Reset=Low)` settles to `(Q=High, QBar=Low)` from any prior internal state;
`(Set=Low, Reset=High)` settles to `(Q=Low, QBar=High)`; from either settled
state, repeated `calculate()` with both inputs Low leaves `Q`/`QBar`
unchanged. The binding itself (names `Set`, `Reset`) passes validation. -/
theorem srnor_latch_set_reset_hold (st : LatchState) :
    srNorBindValidate ["Set", "Reset"] = .ok ()
    ∧ srNorStep .high .low st = ⟨.high, .low⟩
    ∧ srNorStep .low .high st = ⟨.low, .high⟩
    ∧ (∀ n : ℕ, (srNorStep .low .low)^[n] ⟨.high, .low⟩ = ⟨.high, .low⟩)
    ∧ (∀ n : ℕ, (srNorStep .low .low)^[n] ⟨.low, .high⟩ = ⟨.low, .high⟩) := by
  refine ⟨rfl, by revert st; decide, by revert st; decide, ?_, ?_⟩ <;>
    intro n <;>
    apply Function.iterate_fixed <;> decide

/-- C2: a DTypeFlipFlop bound to wires `D` and `Clk`: after `calculate()`
with `Clk=High`, `Q` equals `D` and `QBar` is its complement (from any prior
internal state); and after any one `calculate()` call, every further
`calculate()` with `Clk=Low` leaves `Q` and `QBar` unchanged, whatever
sequence of values `D` takes across those consecutive calls. -/
theorem dtype_tracks_d_and_holds_on_low_clk (st : DFlipFlopState)
    (d0 clk0 : State) (ds : List State) :
    (dTypeStep .high .high st).latch = ⟨.high, .low⟩
    ∧ (dTypeStep .low .high st).latch = ⟨.low, .high⟩
    ∧ (ds.foldl (fun s d => dTypeStep d .low s) (dTypeStep d0 clk0 st)).latch
        = (dTypeStep d0 clk0 st).latch := by
  refine ⟨?_, ?_,
    dType_foldl_low_clk_hold ds _ (dTypeStep_settled d0 clk0 st)⟩ <;>
    · rw [dTypeStep_latch]
      revert st
      intro st
      generalize st.latch = l
      revert l
      decide

/-- C10: for every component variant, `calculate()` run twice with unchanged
input states produces the same wire states both times: the second call is the
identity on the state the first call produced. -/
theorem calculate_idempotent :
    (∀ ins o, orCalc ins (orCalc ins o) = orCalc ins o)
    ∧ (∀ ins o, andCalc ins (andCalc ins o) = andCalc ins o)
    ∧ (∀ s o, notCalc s (notCalc s o) = notCalc s o)
    ∧ (∀ ins o, xorCalc ins (xorCalc ins o) = xorCalc ins o)
    ∧ (∀ ins st, norCalc ins (norCalc ins st) = norCalc ins st)
    ∧ (∀ ins st, nandCalc ins (nandCalc ins st) = nandCalc ins st)
    ∧ (∀ ins st, xnorCalc ins (xnorCalc ins st) = xnorCalc ins st)
    ∧ (∀ s r l, srNorStep s r (srNorStep s r l) = srNorStep s r l)
    ∧ (∀ s r l, srNandStep s r (srNandStep s r l) = srNandStep s r l)
    ∧ (∀ d clk st, dTypeStep d clk (dTypeStep d clk st) = dTypeStep d clk st) := by
  refine ⟨fun _ _ => rfl, fun _ _ => rfl, fun _ _ => rfl, fun _ _ => rfl,
    fun _ _ => rfl, fun _ _ => rfl, fun _ _ => rfl,
    srNorStep_idem, srNandStep_idem, fun d clk st => ?_⟩
  show (⟨notGateOut d, nandGateOut [d, clk],
        nandGateOut [notGateOut d, clk],
        srNandStep (nandGateOut [d, clk]) (nandGateOut [notGateOut d, clk])
          (dTypeStep d clk st).latch⟩ : DFlipFlopState) = _
  rw [dTypeStep_latch, srNandStep_idem]
  rfl

end Emulate

namespace Emulate

/-- High swapped with Low; the logical complement the spec refers to. -/
def complementState : State → State
  | .high => .low
  | .low => .high
  | .z => .z

lemma ite_high_or_low (c : Prop) [Decidable c] :
    (if c then State.high else State.low) = State.high
    ∨ (if c then State.high else State.low) = State.low := by
  by_cases h : c
  · exact Or.inl (if_pos h)
  · exact Or.inr (if_neg h)

lemma notGateOut_complement (s : State)
    (h : s = State.high ∨ s = State.low) :
    notGateOut s = complementState s := by
  rcases h with h | h <;> rw [h] <;> rfl

lemma andGateOut_high_or_low (ins : List State) :
    andGateOut ins = State.high ∨ andGateOut ins = State.low := by
  unfold andGateOut; exact ite_high_or_low _

lemma orGateOut_high_or_low (ins : List State) :
    orGateOut ins = State.high ∨ orGateOut ins = State.low := by
  unfold orGateOut; exact ite_high_or_low _

lemma xorGateOut_high_or_low (ins : List State) :
    xorGateOut ins = State.high ∨ xorGateOut ins = State.low := by
  unfold xorGateOut; exact ite_high_or_low _

/-- C4: on every assignment of two or more High/Low inputs, NAND, NOR and
XNOR output the complement (High swapped with Low) of AND, OR and XOR
respectively on the same inputs. -/
theorem derived_gates_are_complements (ins : List State)
    (_h2 : 2 ≤ ins.length)
    (_hb : ∀ i ∈ ins, i = State.high ∨ i = State.low) :
    nandGateOut ins = complementState (andGateOut ins)
    ∧ norGateOut ins = complementState (orGateOut ins)
    ∧ xnorGateOut ins = complementState (xorGateOut ins) :=
  ⟨notGateOut_complement _ (andGateOut_high_or_low ins),
   notGateOut_complement _ (orGateOut_high_or_low ins),
   notGateOut_complement _ (xorGateOut_high_or_low ins)⟩

/-- Witness for C4 at the concrete input `[High, Low]`. -/
theorem derived_gates_are_complements_witness :
    (2 ≤ ([State.high, State.low] : List State).length
      ∧ ∀ i ∈ ([State.high, State.low] : List State),
          i = State.high ∨ i = State.low)
    ∧ (nandGateOut [State.high, State.low]
         = complementState (andGateOut [State.high, State.low])
       ∧ norGateOut [State.high, State.low]
         = complementState (orGateOut [State.high, State.low])
       ∧ xnorGateOut [State.high, State.low]
         = complementState (xorGateOut [State.high, State.low])) :=
  ⟨⟨by decide, by decide⟩,
   derived_gates_are_complements [State.high, State.low] (by decide) (by decide)⟩

end Emulate

namespace Emulate

lemma all_asserted_iff_all_high (ins : List State)
    (hb : ∀ i ∈ ins, i = State.high ∨ i = State.low) :
    ins.all State.asserted = true ↔ ∀ i ∈ ins, i = State.high := by
  rw [List.all_eq_true]
  constructor
  · intro h i hi
    rcases hb i hi with h1 | h1
    · exact h1
    · exact absurd (h i hi) (by rw [h1]; decide)
  · intro h i hi
    rw [h i hi]; decide

lemma any_asserted_iff_exists_high (ins : List State)
    (hb : ∀ i ∈ ins, i = State.high ∨ i = State.low) :
    ins.any State.asserted = true ↔ ∃ i ∈ ins, i = State.high := by
  rw [List.any_eq_true]
  constructor
  · rintro ⟨i, hi, ha⟩
    rcases hb i hi with h1 | h1
    · exact ⟨i, hi, h1⟩
    · exact absurd ha (by rw [h1]; decide)
  · rintro ⟨i, hi, h1⟩
    exact ⟨i, hi, by rw [h1]; decide⟩

lemma countP_asserted_eq_count_high (ins : List State)
    (hb : ∀ i ∈ ins, i = State.high ∨ i = State.low) :
    ins.countP State.asserted = ins.count State.high := by
  rw [List.count_eq_countP]
  exact List.countP_congr (fun i hi => by
    rcases hb i hi with h1 | h1 <;> rw [h1] <;> decide)

/-- C3: on every assignment of two or more High/Low inputs, AND outputs High
exactly when all inputs are High, OR exactly when at least one input is High,
and XOR exactly when exactly one input is High; otherwise they output Low. -/
theorem primitive_gate_truth_tables (ins : List State) (_h2 : 2 ≤ ins.length)
    (hb : ∀ i ∈ ins, i = State.high ∨ i = State.low) :
    (andGateOut ins
      = if ∀ i ∈ ins, i = State.high then State.high else State.low)
    ∧ (orGateOut ins
      = if ∃ i ∈ ins, i = State.high then State.high else State.low)
    ∧ (xorGateOut ins
      = if ins.count State.high = 1 then State.high else State.low) := by
  refine ⟨?_, ?_, ?_⟩
  · unfold andGateOut
    by_cases hc : ∀ i ∈ ins, i = State.high
    · rw [if_pos ((all_asserted_iff_all_high ins hb).mpr hc), if_pos hc]
    · rw [if_neg (fun hh => hc ((all_asserted_iff_all_high ins hb).mp hh)),
        if_neg hc]
  · unfold orGateOut
    by_cases hc : ∃ i ∈ ins, i = State.high
    · rw [if_pos ((any_asserted_iff_exists_high ins hb).mpr hc), if_pos hc]
    · rw [if_neg (fun hh => hc ((any_asserted_iff_exists_high ins hb).mp hh)),
        if_neg hc]
  · unfold xorGateOut
    rw [countP_asserted_eq_count_high ins hb]
    by_cases hc : ins.count State.high = 1
    · rw [if_pos (beq_iff_eq.mpr hc), if_pos hc]
    · rw [if_neg (fun hh => hc (beq_iff_eq.mp hh)), if_neg hc]

/-- Witness for C3 at the concrete input `[High, Low]`. -/
theorem primitive_gate_truth_tables_witness :
    (2 ≤ ([State.high, State.low] : List State).length
      ∧ ∀ i ∈ ([State.high, State.low] : List State),
          i = State.high ∨ i = State.low)
    ∧ ((andGateOut [State.high, State.low]
         = if ∀ i ∈ ([State.high, State.low] : List State), i = State.high
           then State.high else State.low)
       ∧ (orGateOut [State.high, State.low]
         = if ∃ i ∈ ([State.high, State.low] : List State), i = State.high
           then State.high else State.low)
       ∧ (xorGateOut [State.high, State.low]
         = if ([State.high, State.low] : List State).count State.high = 1
           then State.high else State.low)) :=
  ⟨⟨by decide, by decide⟩,
   primitive_gate_truth_tables [State.high, State.low] (by decide) (by decide)⟩

end Emulate

namespace Emulate

lemma orGateOut_eq_high_iff (ins : List State) :
    orGateOut ins = State.high ↔ ins.any State.asserted = true := by
  unfold orGateOut
  by_cases hc : ins.any State.asserted = true
  · rw [if_pos hc]; exact ⟨fun _ => hc, fun _ => rfl⟩
  · rw [if_neg hc]; exact ⟨fun h => absurd h (by decide), fun h => absurd h hc⟩

lemma andGateOut_eq_low_iff (ins : List State) :
    andGateOut ins = State.low ↔ ¬ ins.all State.asserted = true := by
  unfold andGateOut
  by_cases hc : ins.all State.asserted = true
  · rw [if_pos hc]; exact ⟨fun h => absurd h (by decide), fun h => absurd hc h⟩
  · rw [if_neg hc]; exact ⟨fun _ => hc, fun _ => rfl⟩

/-- C5 counterexample: in the integer comparison `state >= State.high`, the
Floating value `z` (2) also counts as asserted, so an OrGate whose inputs are
all Floating outputs High (the claim says Low) and an AndGate with one
Floating and one High input outputs High (the claim says Low). -/
theorem floating_asserted_counterexample :
    State.asserted State.z = true
    ∧ orGateOut [State.z, State.z] = State.high
    ∧ orGateOut [State.z, State.z] ≠ State.low
    ∧ andGateOut [State.z, State.high] = State.high
    ∧ andGateOut [State.z, State.high] ≠ State.low := by
  decide

/-- C5 amended: an input counts as asserted iff its state is at least High
(High or Floating); consequently an OrGate outputs High iff some input is
High or Floating (an all-Floating OrGate outputs High), and an AndGate
outputs Low iff some input is Low, so a Floating input never forces the
output Low. -/
theorem asserted_matches_at_least_high (s : State) (ins : List State) :
    (State.asserted s = true ↔ (s = State.high ∨ s = State.z))
    ∧ (orGateOut ins = State.high ↔ ∃ i ∈ ins, i = State.high ∨ i = State.z)
    ∧ (andGateOut ins = State.low ↔ ∃ i ∈ ins, i = State.low) := by
  have hassert : ∀ i : State,
      State.asserted i = true ↔ (i = State.high ∨ i = State.z) := by decide
  refine ⟨hassert s, ?_, ?_⟩
  · rw [orGateOut_eq_high_iff, List.any_eq_true]
    constructor
    · rintro ⟨i, hi, ha⟩
      exact ⟨i, hi, (hassert i).mp ha⟩
    · rintro ⟨i, hi, ha⟩
      exact ⟨i, hi, (hassert i).mpr ha⟩
  · rw [andGateOut_eq_low_iff, List.all_eq_true]
    push_neg
    constructor
    · rintro ⟨i, hi, ha⟩
      refine ⟨i, hi, ?_⟩
      revert ha
      cases i <;> decide
    · rintro ⟨i, hi, ha⟩
      exact ⟨i, hi, by rw [ha]; decide⟩

end Emulate

namespace Emulate

/-- C6 counterexample: the collection `["A"]` validated against expected
names `["B"]` has both an unexpected name (`A`) and a missing name (`B`),
yet the raised error reports only the unexpected names — the missing-names
condition is never reached. -/
theorem validate_both_conditions_counterexample :
    unexpectedNamesOf ["A"] ["B"] = ["A"]
    ∧ missingNamesOf ["A"] ["B"] = ["B"]
    ∧ nodeListValidate ["A"] "element" (some ["B"]) none none
        = .error (.unexpectedNames ["A"]) :=
  ⟨rfl, rfl, rfl⟩

/-- C6 amended: when the collection contains any unexpected names, `validate`
raises only the unexpected-names error, shadowing any missing names; the
missing-names error is raised only when there are no unexpected names. -/
theorem validate_unexpected_shadows_missing (names expected : List String)
    (hne : expected ≠ []) :
    (unexpectedNamesOf names expected ≠ [] →
      nodeListValidate names "element" (some expected) none none
        = .error (.unexpectedNames (unexpectedNamesOf names expected)))
    ∧ (unexpectedNamesOf names expected = [] →
       missingNamesOf names expected ≠ [] →
       nodeListValidate names "element" (some expected) none none
        = .error (.missingNames (missingNamesOf names expected))) := by
  have hmin : ¬ (optNatTruthy none = true
      ∧ names.length < (none : Option Nat).getD 0) := by
    rintro ⟨h, -⟩; exact absurd h (by decide)
  have hmax : ¬ (optNatTruthy none = true
      ∧ (none : Option Nat).getD 0 < names.length) := by
    rintro ⟨h, -⟩; exact absurd h (by decide)
  have hext : optListTruthy (some expected) = true := by
    cases expected with
    | nil => exact absurd rfl hne
    | cons a t => rfl
  constructor
  · intro hu
    unfold nodeListValidate
    rw [if_neg hmin, if_neg hmax, if_pos hext]
    simp only [Option.getD_some]
    rw [if_pos hu]
  · intro hu hm
    unfold nodeListValidate
    rw [if_neg hmin, if_neg hmax, if_pos hext]
    simp only [Option.getD_some]
    rw [if_neg (fun h => h hu), if_pos hm]

/-- Witness for the amended C6 at the concrete collection `["A"]` with
expected names `["B"]`. -/
theorem validate_unexpected_shadows_missing_witness :
    (["B"] : List String) ≠ []
    ∧ unexpectedNamesOf ["A"] ["B"] ≠ []
    ∧ nodeListValidate ["A"] "element" (some ["B"]) none none
        = .error (.unexpectedNames (unexpectedNamesOf ["A"] ["B"])) :=
  ⟨by decide, by decide,
   (validate_unexpected_shadows_missing ["A"] ["B"] (by decide)).1 (by decide)⟩

end Emulate

namespace Emulate

/-- The `MinTwoInputOneOutputComponent.inputs` setter:
`if inputs and len(inputs) < 2: raise ValueError(...)` — an empty (falsy)
input list skips the arity check entirely. -/
def minTwoInputsSet (gateName : String) (inputs : List Node) :
    Except String (List Node) :=
  if inputs ≠ [] ∧ inputs.length < 2 then
    .error (gateName ++ " must have two or more inputs.")
  else .ok inputs

/-- The `NotGate.inputs` setter: `if len(inputs) != 1: raise ValueError`. -/
def notGateInputsSet (inputs : List Node) : Except String (List Node) :=
  if inputs.length ≠ 1 then .error "A not gate can only have one input."
  else .ok inputs

/-- `ComponentBase.__init__` input handling: the inputs setter is invoked
only when the `inputs` argument is truthy (`if inputs:`), so `None` and the
empty list skip binding entirely and no validation runs. -/
def componentInitBind (setter : List Node → Except String (List Node))
    (inputs : Option (List Node)) : Except String (Option (List Node)) :=
  match inputs with
  | none => .ok none
  | some l => if l = [] then .ok none else (setter l).map some

/-- C7 counterexample: binding zero input wires raises no error at all — the
empty list is falsy, so construction skips the setter and the min-two-inputs
setter skips its own check; the claim says an ArityError is raised. -/
theorem zero_inputs_bind_counterexample :
    minTwoInputsSet "AndGate" [] = .ok []
    ∧ componentInitBind (minTwoInputsSet "AndGate") (some []) = .ok none
    ∧ componentInitBind notGateInputsSet (some []) = .ok none :=
  ⟨rfl, rfl, rfl⟩

/-- C7 amended: binding exactly one wire to a 2+-input gate fails at bind
time (construction and rebind alike), and binding two or more succeeds;
NOT fails on any non-empty list of length other than one (any two or more
wires, at construction and rebind), and on a rebind with the empty list;
but binding zero wires to a 2+-input gate raises no error (the empty list
is falsy, so the check is skipped), and at construction even NOT accepts an
empty list silently. The error is a `ValueError` carrying the arity
message. -/
theorem arity_bind_errors (a b c : Node) (t : List Node) :
    minTwoInputsSet "AndGate" [a]
      = .error "AndGate must have two or more inputs."
    ∧ componentInitBind (minTwoInputsSet "AndGate") (some [a])
      = .error "AndGate must have two or more inputs."
    ∧ minTwoInputsSet "AndGate" (a :: b :: t) = .ok (a :: b :: t)
    ∧ minTwoInputsSet "AndGate" [] = .ok []
    ∧ notGateInputsSet [] = .error "A not gate can only have one input."
    ∧ notGateInputsSet (b :: c :: t)
      = .error "A not gate can only have one input."
    ∧ componentInitBind notGateInputsSet (some (b :: c :: t))
      = .error "A not gate can only have one input."
    ∧ componentInitBind notGateInputsSet (some []) = .ok none
    ∧ notGateInputsSet [a] = .ok [a] := by
  refine ⟨?_, ?_, ?_, rfl, rfl, ?_, ?_, rfl, ?_⟩
  · unfold minTwoInputsSet
    rw [if_pos ⟨List.cons_ne_nil a [], by simp⟩]
    rfl
  · show (if ([a] : List Node) = [] then Except.ok none
        else (minTwoInputsSet "AndGate" [a]).map some)
      = Except.error "AndGate must have two or more inputs."
    rw [if_neg (List.cons_ne_nil a [])]
    unfold minTwoInputsSet
    rw [if_pos ⟨List.cons_ne_nil a [], by simp⟩]
    rfl
  · unfold minTwoInputsSet
    rw [if_neg]
    rintro ⟨-, hlt⟩
    simp [List.length_cons] at hlt
    omega
  · unfold notGateInputsSet
    rw [if_pos (by simp)]
  · show (if (b :: c :: t : List Node) = [] then Except.ok none
        else (notGateInputsSet (b :: c :: t)).map some)
      = Except.error "A not gate can only have one input."
    rw [if_neg (List.cons_ne_nil b (c :: t))]
    unfold notGateInputsSet
    rw [if_pos (by simp)]
    rfl
  · unfold notGateInputsSet
    rw [if_neg (by simp)]

end Emulate

namespace Emulate

/-- C8: the `JKFlipFlop` input binding in the source validates with
`expected_names=["J", "K", "Clk"]` but `max_length=2`, so binding the three
wires named exactly J, K, Clk fails with the maximum-length error instead of
succeeding, and every strict subset of the names fails the missing-names
check: no input list can ever bind a JKFlipFlop. -/
theorem jk_flipflop_bind_always_fails :
    jkBindValidate ["J", "K", "Clk"] = .error (.maxLength "JKFlipFlop" 2)
    ∧ jkBindValidate ["J", "K"] = .error (.missingNames ["Clk"])
    ∧ jkBindValidate ["J", "Clk"] = .error (.missingNames ["K"])
    ∧ jkBindValidate ["K", "Clk"] = .error (.missingNames ["J"])
    ∧ jkBindValidate ["J"] = .error (.minLength "JKFlipFlop" 2) :=
  ⟨rfl, rfl, rfl, rfl, rfl⟩

end Emulate

namespace Emulate

/-- C9 counterexample: two distinct Wire objects with equal states compare
unequal — `Node` defines no `__eq__`, so `==` between two Wires is the
default object-identity comparison, not state equality as the claim says. -/
theorem wire_equality_counterexample :
    nodeEqNode ⟨1, "a", State.high⟩ ⟨2, "b", State.high⟩ = false
    ∧ (Node.mk 1 "a" State.high).state = (Node.mk 2 "b" State.high).state := by
  decide

/-- C9 amended: equality between two Wires is object identity; equality of
states governs only the comparison of a Signal Value with a Wire (through
`State.__eq__`, also reached by reflected dispatch for `wire == value`). -/
theorem wire_equality_semantics (a b : Node) (s : State) :
    (nodeEqNode a b = true ↔ a.id = b.id)
    ∧ (stateEqNode s b = true ↔ s.toNat = b.state.toNat) := by
  constructor <;> simp [nodeEqNode, stateEqNode]

end Emulate
